import Mathlib

/-!
Verification of the layout-inference engine of `src/scraper/layout_analyzer.py`.

The engine's pure pipeline (everything downstream of element collection) is
embedded as executable Lean definitions over exact rationals `ℚ`, which
idealise Python floats.  Python-specific primitives (`round` with its
round-half-to-even rule, truthiness, `in` substring tests, `str.lower`,
decimal rendering of integers in f-strings) are modelled by small helper
functions defined first.  Browser-side accessors (Playwright calls) are the
input boundary: the pipeline consumes an already-collected list of
`ElementInfo` records, and a pipeline-level exception is modelled by an
`Except` input to `analyze_layout`.  Opaque payloads that the engine merely
passes through (animation and component descriptors) are modelled as
`Option String`.
-/

/-- Python `abs` on a float, idealised over `ℚ`. -/
def pyAbs (q : ℚ) : ℚ := if q < 0 then -q else q

/-- Python `max(a, b)` on floats, idealised over `ℚ`. -/
def pyMax (a b : ℚ) : ℚ := if a < b then b else a

/-- Mathematical floor of a rational, computed on the normalised
numerator/denominator pair so that it evaluates inside the kernel. -/
def pyFloor (q : ℚ) : ℤ := q.num.fdiv (q.den : ℤ)

/-- Python `round(x)` (one-argument `round`): nearest integer with ties going
to the even neighbour (banker's rounding). -/
def pyRoundInt (q : ℚ) : ℤ :=
  let f := pyFloor q
  let r := q - (f : ℚ)
  if r < 1/2 then f
  else if 1/2 < r then f + 1
  else if f % 2 = 0 then f else f + 1

/-- Python `round(x, 4)`, idealised: the resulting value times `10^4` is the
banker's rounding of `x * 10^4`. -/
def pyRound4 (q : ℚ) : ℚ := (pyRoundInt (q * 10000) : ℚ) / 10000

/-- Python `round(x, 3)`, idealised likewise. -/
def pyRound3 (q : ℚ) : ℚ := (pyRoundInt (q * 1000) : ℚ) / 1000

/-- ASCII lower-casing of one character, as `str.lower` acts on the
class-name and tag strings that occur in the analyzer. -/
def pyCharLower (c : Char) : Char :=
  if 'A' ≤ c ∧ c ≤ 'Z' then Char.ofNat (c.toNat + 32) else c

/-- Python `s.lower()` (ASCII fragment). -/
def pyLower (s : String) : String := ⟨s.toList.map pyCharLower⟩

/-- Helper for the substring test: does `needle` occur in the character
list, at this position or later? -/
def pyInAux (needle : List Char) : List Char → Bool
  | [] => needle.isEmpty
  | c :: rest => needle.isPrefixOf (c :: rest) || pyInAux needle rest

/-- Python `needle in hay` on strings: contiguous-substring containment. -/
def pyIn (needle hay : String) : Bool := pyInAux needle.toList hay.toList

/-- Fuel-driven decimal-digit expansion (structural recursion, so that it
evaluates inside the kernel); any fuel above the number suffices. -/
def natCharsAux : ℕ → ℕ → List Char
  | 0, _ => []
  | fuel + 1, n =>
    if n < 10 then [Nat.digitChar n]
    else natCharsAux fuel (n / 10) ++ [Nat.digitChar (n % 10)]

/-- Decimal digits of a natural number, most significant first, as the
f-strings of the analyzer render counters. -/
def natChars (n : ℕ) : List Char := natCharsAux (n + 1) n

/-- Decimal rendering of a natural number (`f"{n}"`). -/
def natStr (n : ℕ) : String := ⟨natChars n⟩

/-- Python truthiness of an optional string: `None` and `""` are falsy. -/
def pyTruthy (o : Option String) : Bool :=
  match o with
  | none => false
  | some s => s ≠ ""

/-- Pixel or normalized bounding box: the `{x, y, width, height}` dict. -/
structure PyBBox where
  x : ℚ
  y : ℚ
  width : ℚ
  height : ℚ
deriving DecidableEq

/-- The `ElementInfo` dataclass, restricted to the fields the pure pipeline
reads.  `computed_display` is `computed_styles.get('display')`;
`backgroundImage` is the computed background-image style (empty when
missing).  `animations` and `component_info` are opaque payloads. -/
structure ElementInfo where
  tag : String
  bounding_box : PyBBox
  text_content : String
  class_names : List String
  id : Option String
  role : Option String
  element_type : String
  is_visible : Bool
  has_children : Bool
  computed_display : Option String
  backgroundImage : String
  animations : Option String
  component_info : Option String
deriving DecidableEq

/-- The `Slot` dataclass. -/
structure Slot where
  id : String
  type : String
  role : String
  bounding_box : PyBBox
  aspect : Option String
  repeated : Bool
  repeated_index : Option ℕ
  animations : Option String
  component_info : Option String
deriving DecidableEq

/-- Layout hints attached to a section: either the grid descriptor produced
by `_detect_grid_layout` or the flex fallback. -/
structure LayoutHints where
  displayType : String
  gridColumns : Option ℕ
  gap : ℚ
  flexDirection : Option String
  alignment : String
deriving DecidableEq

/-- The `Section` dataclass. -/
structure Section where
  id : String
  role : String
  layout_hints : LayoutHints
  slot_ids : List String
  animations : Option (List (String × String))
  components : Option (List (String × String))
deriving DecidableEq

/-- One slot dict of the result's top-level `slots` list (lines 945-958 of
the source).  An `Option` field models an optional key: `none` means the key
is absent from the dict. -/
structure OutSlot where
  id : String
  type : String
  role : String
  boundingBox : PyBBox
  aspect : Option String
  repeatedKeys : Option (Bool × Option ℕ)
  animations : Option String
  componentInfo : Option String
deriving DecidableEq

/-- One entry of the `repeatedGroups` metadata mapping. -/
structure RepGroupMeta where
  role : String
  count : ℕ
  items : List (ℕ × List String)
deriving DecidableEq

/-- The `patternSummary` dict. -/
structure PatternSummary where
  patternType : String
  patternSequence : List String
  sectionCount : ℕ
  slotCount : ℕ
  features : List (String × Bool)
  dominantLayout : String
  layoutDistribution : List (String × ℕ)
deriving DecidableEq

/-- The `grouping` dict. -/
structure Grouping where
  repeatedGroups : List (String × RepGroupMeta)
  visualGroups : List (String × List String)
  groupCount : ℕ
deriving DecidableEq

/-- The full result dict of `analyze_layout`.  `error` is `none` when the
`error` key is absent. -/
structure LayoutResult where
  id : String
  screenType : String
  viewport : ℚ × ℚ
  patternSummary : PatternSummary
  grouping : Grouping
  sections : List Section
  slots : List OutSlot
  error : Option String
deriving DecidableEq

/-- The data a fault-free run of the collection phase hands to the pure
pipeline: the viewport (when `page.viewport_size` is not `None`) and the
collected `ElementInfo` records. -/
structure AnalyzeInput where
  viewport : Option (ℚ × ℚ)
  elements : List ElementInfo

/-- The `common_ratios` table of `_simplify_ratio` (source lines 184-192):
numerator, denominator, label. -/
def commonRatios : List (ℤ × ℤ × String) :=
  [(1, 1, "1:1"), (4, 3, "4:3"), (16, 9, "16:9"), (16, 10, "16:10"),
   (21, 9, "21:9"), (3, 2, "3:2"), (2, 1, "2:1")]

/-- Decimal rendering of an integer (`f"{z}"`). -/
def intStr (z : ℤ) : String :=
  if z < 0 then "-" ++ natStr z.natAbs else natStr z.natAbs

/-- One step of the fallback search of `_simplify_ratio` (source lines
203-211): try denominator `denom`, keeping the strictly best qualifying
approximation found so far (`acc` is `(best_match, best_diff)`). -/
def bestApproxStep (ratio tolerance : ℚ) (acc : Option (String × ℚ))
    (denom : ℕ) : Option (String × ℚ) :=
  let num := pyRoundInt (ratio * (denom : ℚ))
  if num = 0 then acc
  else
    let diff := pyAbs (ratio - (num : ℚ) / (denom : ℚ))
    match acc with
    | none =>
        if diff < tolerance then some (intStr num ++ ":" ++ natStr denom, diff)
        else none
    | some (label, best_diff) =>
        if diff < best_diff ∧ diff < tolerance then
          some (intStr num ++ ":" ++ natStr denom, diff)
        else some (label, best_diff)

/-- The fallback search of `_simplify_ratio` over denominators 1..20. -/
def bestApprox (ratio tolerance : ℚ) : Option String :=
  (((List.range 20).map (· + 1)).foldl (bestApproxStep ratio tolerance) none).map
    Prod.fst

/-- `_simplify_ratio` (source lines 176-213): `None` when `height` is zero,
else the first common ratio within tolerance, else the best `num:denom`
approximation over denominators 1..20 within tolerance, else `None`. -/
def _simplify_ratio (width height tolerance : ℚ) : Option String :=
  if height = 0 then none
  else
    let ratio := width / height
    match commonRatios.find? (fun t => pyAbs (ratio - (t.1 : ℚ) / (t.2.1 : ℚ)) < tolerance) with
    | some t => some t.2.2
    | none => bestApprox ratio tolerance

/-- The element-type decision of `_get_element_info` (source lines 274-285),
which is pure in the tag, class list and computed background-image style. -/
def elementTypeOf (tag : String) (class_names : List String)
    (backgroundImage : String) : String :=
  let class_str := pyLower (String.intercalate " " class_names)
  let has_bg_image := backgroundImage ≠ "" ∧ backgroundImage ≠ "none"
  if tag ∈ ["img", "picture", "svg"] then "image"
  else if has_bg_image ∨
      (["bg-cover", "bg-image", "bg-img", "hero-image"].any fun token => pyIn token class_str) then
    "image"
  else if tag ∈ ["h1", "h2", "h3", "h4", "h5", "h6", "p", "span", "a", "button", "label"] then
    "text"
  else "container"

/-- `_infer_semantic_role` (source lines 311-354). -/
def _infer_semantic_role (element : ElementInfo) (position_in_viewport : ℚ)
    (is_large has_headline : Bool) : String :=
  let class_str := pyLower (String.intercalate " " element.class_names)
  let text_lower := pyLower element.text_content
  if pyIn "hero" class_str ∨ pyIn "hero" text_lower ∨
      (position_in_viewport < 3/10 ∧ is_large ∧ has_headline) then
    if element.has_children then "hero-split" else "hero"
  else if pyIn "card" class_str ∨ pyIn "card" text_lower then "card-item"
  else if pyIn "grid" class_str ∨ element.computed_display = some "grid" then "card-grid"
  else if element.tag = "nav" ∨ pyIn "nav" class_str ∨ element.role = some "navigation" then
    "navigation"
  else if element.tag ∈ ["h1", "h2", "h3"] then "headline"
  else if element.tag ∈ ["h4", "h5", "h6"] then "subhead"
  else if element.tag ∈ ["button", "a"] ∧ (pyIn "cta" class_str ∨ pyIn "button" class_str) then
    "cta"
  else if element.element_type = "image" then
    if position_in_viewport < 3/10 then "hero-image" else "image"
  else "content-block"

/-- `_normalize_role` (source lines 433-478). -/
def _normalize_role (role : String) : String :=
  let role_lower := pyLower role
  if role_lower ∈ ["hero", "hero-split", "hero-section"] then "hero"
  else if role_lower ∈ ["card", "card-item", "card-grid"] then
    if pyIn "grid" role_lower then "card-grid" else "card"
  else if role_lower ∈ ["content", "content-block", "content-section", "content-area"] then
    "content"
  else if role_lower ∈ ["nav", "navigation", "navbar", "menu"] then "navigation"
  else if role_lower ∈ ["headline", "heading", "title", "h1", "h2", "h3"] then "headline"
  else if role_lower ∈ ["subhead", "subheading", "subtitle", "h4", "h5", "h6"] then "subhead"
  else if role_lower ∈ ["body", "paragraph", "text", "p"] then "body-text"
  else if role_lower ∈ ["image", "img", "picture", "photo"] then "image"
  else if role_lower ∈ ["hero-image", "hero-img"] then "hero-image"
  else if role_lower ∈ ["cta", "button", "call-to-action", "action"] then "cta"
  else if role_lower ∈ ["footer", "foot"] then "footer"
  else if role_lower = "" then "content"
  else role_lower

/-- `_normalize_bounding_box` (source lines 481-491): divide by the viewport
dimensions and round to 4 decimals, passing the box through unchanged when a
viewport dimension is zero. -/
def _normalize_bounding_box (bbox : PyBBox) (viewport_width viewport_height : ℚ) : PyBBox :=
  if viewport_width = 0 ∨ viewport_height = 0 then bbox
  else
    { x := pyRound4 (bbox.x / viewport_width),
      y := pyRound4 (bbox.y / viewport_height),
      width := pyRound4 (bbox.width / viewport_width),
      height := pyRound4 (bbox.height / viewport_height) }

/-- The pairwise dimension-similarity test of `_detect_repeated_groups`
(source lines 374-380): width and height each differ by less than
`threshold` of the larger dimension (a zero larger dimension counts as
maximally different). -/
def similarDims (threshold : ℚ) (elem1 elem2 : ElementInfo) : Bool :=
  let w1 := elem1.bounding_box.width
  let h1 := elem1.bounding_box.height
  let w2 := elem2.bounding_box.width
  let h2 := elem2.bounding_box.height
  let width_diff := if pyMax w1 w2 > 0 then pyAbs (w1 - w2) / pyMax w1 w2 else 1
  let height_diff := if pyMax h1 h2 > 0 then pyAbs (h1 - h2) / pyMax h1 h2 else 1
  decide (width_diff < threshold ∧ height_diff < threshold)

/-- The outer loop of `_detect_repeated_groups` (source lines 360-388) over
the remaining seed indices.  The inner `for j` loop collects, among the
indices after the seed, those not yet processed whose dimensions are similar
to the seed's; additions to `processed` made inside one inner pass never
affect that same pass because indices are distinct, so the inner loop is a
filter of the tail. -/
def detectRepeatedGroupsGo (elems : List ElementInfo) (threshold : ℚ) :
    List ℕ → List ℕ → List (ℕ × List ℕ) → List (ℕ × List ℕ)
  | [], _, groups => groups
  | i :: rest, processed, groups =>
    if i ∈ processed then detectRepeatedGroupsGo elems threshold rest processed groups
    else
      match elems.get? i with
      | none => detectRepeatedGroupsGo elems threshold rest processed groups
      | some elem1 =>
        let others := rest.filter fun j =>
          decide (j ∉ processed) &&
            (match elems.get? j with
             | some elem2 => similarDims threshold elem1 elem2
             | none => false)
        let group := i :: others
        if 1 < group.length then
          detectRepeatedGroupsGo elems threshold rest (processed ++ others ++ [i])
            (groups ++ [(i, group)])
        else detectRepeatedGroupsGo elems threshold rest processed groups

/-- `_detect_repeated_groups` (source lines 357-388): greedy grouping of
elements by dimensional similarity; returns the `groups` dict as an ordered
list of (seed index, member indices). -/
def _detect_repeated_groups (elems : List ElementInfo) (threshold : ℚ) :
    List (ℕ × List ℕ) :=
  detectRepeatedGroupsGo elems threshold (List.range elems.length) [] []

/-- The significance filter of `analyze_layout` (source lines 695-699):
keep elements at least 20 px in both dimensions. -/
def significantElements (elements : List ElementInfo) : List ElementInfo :=
  elements.filter fun e =>
    decide (e.bounding_box.width ≥ 20 ∧ e.bounding_box.height ≥ 20)

/-- `position_ratio` of the slot loop (source line 724). -/
def positionRatioOf (viewport_height : ℚ) (element : ElementInfo) : ℚ :=
  if viewport_height > 0 then element.bounding_box.y / viewport_height else 1/2

/-- `is_large` of the slot loop (source lines 727-728). -/
def isLargeOf (element : ElementInfo) : Bool :=
  decide (element.bounding_box.width > 300 ∨ element.bounding_box.height > 200)

/-- `has_headline` of the slot loop (source lines 740-743). -/
def hasHeadlineOf (element : ElementInfo) : Bool :=
  decide (element.tag ∈ ["h1", "h2", "h3"]) ||
    element.class_names.any fun c => pyIn "headline" (pyLower c)

/-- The raw (pre-normalization) role the slot loop infers for an element
(source line 746). -/
def rawRoleOf (viewport_height : ℚ) (element : ElementInfo) : String :=
  _infer_semantic_role element (positionRatioOf viewport_height element)
    (isLargeOf element) (hasHeadlineOf element)

/-- The slot-type decision of the slot loop (source lines 751-762):
`none` means the `continue` branch (no slot emitted). -/
def slotTypeOf (element : ElementInfo) : Option String :=
  if element.element_type = "container" ∧ element.has_children then some "container"
  else if element.element_type = "text" ∧
      element.tag ∈ ["h1", "h2", "h3", "h4", "h5", "h6", "p"] then some "text"
  else if element.element_type = "image" then some "image"
  else if element.text_content = "" ∧ ¬element.has_children then none
  else some "container"

/-- The slot record the slot loop emits (source lines 764-804) once the
`continue` checks have passed, for the element at index `i` of the
significant list, the current `slot_counter`, and the already-decided slot
type. -/
def emittedSlot (viewport_width viewport_height : ℚ)
    (repeated_groups : List (ℕ × List ℕ)) (i slot_counter : ℕ)
    (element : ElementInfo) (slot_type : String) : Slot :=
  let role := rawRoleOf viewport_height element
  let gen_id := "slot-" ++ role ++ "-" ++ natStr slot_counter
  let slot_id :=
    match element.id with
    | some d => if d ≠ "" then "slot-" ++ d else gen_id
    | none => gen_id
  let aspect :=
    if slot_type = "image" then
      _simplify_ratio element.bounding_box.width element.bounding_box.height (1/100)
    else none
  let is_repeated := repeated_groups.any fun g => decide (i ∈ g.2)
  let repeated_index : Option ℕ :=
    if is_repeated then
      match repeated_groups.find? (fun g => decide (i ∈ g.2)) with
      | some g => some (g.2.indexOf i)
      | none => none
    else none
  { id := slot_id, type := slot_type, role := _normalize_role role,
    bounding_box :=
      _normalize_bounding_box element.bounding_box viewport_width viewport_height,
    aspect := aspect, repeated := is_repeated, repeated_index := repeated_index,
    animations := element.animations, component_info := element.component_info }

/-- One iteration of the slot loop of `analyze_layout` (source lines
716-806) for the element at index `i` of the significant list, with the
current value of `slot_counter`: `none` exactly when the loop hits a
`continue` before emitting a slot. -/
def slotStep (viewport_width viewport_height : ℚ)
    (repeated_groups : List (ℕ × List ℕ)) (i slot_counter : ℕ)
    (element : ElementInfo) : Option Slot :=
  if element.bounding_box.width < 50 ∧ element.bounding_box.height < 50 ∧
      element.element_type ≠ "text" then none
  else if element.element_type = "container" ∧ element.has_children ∧
      element.bounding_box.width ≥ viewport_width * (9/10) ∧
      element.bounding_box.height ≥ viewport_height * (7/10) then none
  else
    (slotTypeOf element).map
      (emittedSlot viewport_width viewport_height repeated_groups i slot_counter element)

/-- The slot loop of `analyze_layout` over the enumerated significant
elements, threading `slot_counter`, which advances exactly when a slot is
emitted (the `slot_counter += 1` of line 768 runs after all `continue`s). -/
def buildSlotsAux (viewport_width viewport_height : ℚ)
    (repeated_groups : List (ℕ × List ℕ)) :
    List (ℕ × ElementInfo) → ℕ → List Slot
  | [], _ => []
  | (i, element) :: rest, slot_counter =>
    match slotStep viewport_width viewport_height repeated_groups i slot_counter element with
    | none => buildSlotsAux viewport_width viewport_height repeated_groups rest slot_counter
    | some s =>
        s :: buildSlotsAux viewport_width viewport_height repeated_groups rest (slot_counter + 1)

/-- The slot list `analyze_layout` builds from the collected elements:
significance filter, repeated-group detection, then the slot loop. -/
def analyzeSlots (viewport_width viewport_height : ℚ)
    (elements : List ElementInfo) : List Slot :=
  let significant := significantElements elements
  buildSlotsAux viewport_width viewport_height
    (_detect_repeated_groups significant (1/10)) significant.enum 0

/-- The slot dict of the output (source lines 946-956): optional keys are
present only when the corresponding value is truthy (`repeatedIndex` rides
along with a true `repeated`). -/
def toOutSlot (s : Slot) : OutSlot :=
  { id := s.id, type := s.type, role := s.role, boundingBox := s.bounding_box,
    aspect := if pyTruthy s.aspect then s.aspect else none,
    repeatedKeys := if s.repeated then some (true, s.repeated_index) else none,
    animations := if pyTruthy s.animations then s.animations else none,
    componentInfo := if pyTruthy s.component_info then s.component_info else none }

/-- The result's top-level `slots` list for a given viewport and collected
element list. -/
def outputSlots (viewport_width viewport_height : ℚ)
    (elements : List ElementInfo) : List OutSlot :=
  (analyzeSlots viewport_width viewport_height elements).map toOutSlot

/-- Stable insertion into a list sorted ascending by `x` (equal keys keep
their existing order, as Python's stable `list.sort` does). -/
def insertByX (s : Slot) : List Slot → List Slot
  | [] => [s]
  | t :: ts =>
    if s.bounding_box.x < t.bounding_box.x then s :: t :: ts else t :: insertByX s ts

/-- Stable sort of slots by normalized x (Python `row_slots.sort(key=x)`). -/
def sortByX (slots : List Slot) : List Slot :=
  slots.foldl (fun acc s => insertByX s acc) []

/-- Insertion into an ascending integer list. -/
def insertInt (k : ℤ) : List ℤ → List ℤ
  | [] => [k]
  | x :: xs => if k ≤ x then k :: x :: xs else x :: insertInt k xs

/-- Ascending sort of integers (Python `sorted` over dict keys). -/
def sortedInts (l : List ℤ) : List ℤ := l.foldl (fun acc k => insertInt k acc) []

/-- Insertion into an ascending natural-number list. -/
def insertNat (k : ℕ) : List ℕ → List ℕ
  | [] => [k]
  | x :: xs => if k ≤ x then k :: x :: xs else x :: insertNat k xs

/-- Ascending sort of naturals. -/
def sortedNats (l : List ℕ) : List ℕ := l.foldl (fun acc k => insertNat k acc) []

/-- The row key of `_detect_grid_layout` (source line 401): `round(y / 0.05)`
identifies the bin `round(y / 0.05) * 0.05`. -/
def gridRowKey (s : Slot) : ℤ := pyRoundInt (s.bounding_box.y / (1/20))

/-- First entry with the maximal member count (Python `max(..., key=len)`
keeps the first maximum in iteration order). -/
def firstMaxByLen (bins : List (ℤ × List Slot)) : Option (ℤ × List Slot) :=
  bins.foldl
    (fun acc b =>
      match acc with
      | none => some b
      | some best => if best.2.length < b.2.length then some b else some best)
    none

/-- The positive horizontal gaps between consecutive slots of a row
(source lines 416-421). -/
def gapsOf : List Slot → List ℚ
  | a :: b :: rest =>
    let gap := b.bounding_box.x - (a.bounding_box.x + a.bounding_box.width)
    (if gap > 0 then [gap] else []) ++ gapsOf (b :: rest)
  | _ => []

/-- `_detect_grid_layout` (source lines 391-430). -/
def _detect_grid_layout (slots : List Slot) : Option LayoutHints :=
  if slots.length < 2 then none
  else
    let keys := (slots.map gridRowKey).eraseDups
    let bins := keys.map fun k => (k, slots.filter fun s => decide (gridRowKey s = k))
    match firstMaxByLen bins with
    | none => none
    | some p =>
      if p.2.length < 2 then none
      else
        let row_slots := sortByX p.2
        let gaps := gapsOf row_slots
        let avg_gap := if gaps.length = 0 then 0 else gaps.sum / (gaps.length : ℚ)
        some { displayType := "grid", gridColumns := some row_slots.length,
               gap := pyRound3 avg_gap, flexDirection := none, alignment := "center" }

/-- The section bin key of `analyze_layout` (source lines 814-819):
`round(y / 0.1)` identifies the bin `round(y / 0.1) * 0.1`. -/
def sectionKeyOf (s : Slot) : ℤ := pyRoundInt (s.bounding_box.y / (1/10))

/-- One section (source lines 822-880) from its bin of slots and the current
`section_counter`. -/
def buildSection (section_counter : ℕ) (section_slots : List Slot) : Section :=
  let section_roles := section_slots.map Slot.role
  let raw_role :=
    if pyIn "hero" (String.intercalate " " section_roles) then "hero"
    else if section_roles.any (fun r => pyIn "card" r) then "card-grid"
    else if section_roles.any (fun r => pyIn "grid" r) then "card-grid"
    else "content"
  let section_role := _normalize_role raw_role
  let layout_hints := (_detect_grid_layout section_slots).getD
    { displayType := "flex", gridColumns := none, gap := 24,
      flexDirection := some "column", alignment := "start" }
  let section_animations := section_slots.filterMap fun s =>
    if pyTruthy s.animations then s.animations.map fun a => (s.id, a) else none
  let section_components := section_slots.filterMap fun s =>
    if pyTruthy s.component_info then s.component_info.map fun c => (s.id, c) else none
  { id := "section-" ++ section_role ++ "-" ++ natStr section_counter,
    role := section_role, layout_hints := layout_hints,
    slot_ids := section_slots.map Slot.id,
    animations := if section_animations.isEmpty then none else some section_animations,
    components := if section_components.isEmpty then none else some section_components }

/-- The section grouping of `analyze_layout` (source lines 809-880): bin
slots by `sectionKeyOf`, walk bins in ascending key order, and build one
section per bin (bins are never empty, so `section_counter` equals the bin's
position). -/
def buildSections (slots : List Slot) : List Section :=
  let keys := sortedInts ((slots.map sectionKeyOf).eraseDups)
  (keys.map fun k => slots.filter fun s => decide (sectionKeyOf s = k)).enum.map
    fun p => buildSection p.1 p.2

/-- The pairwise grouping test of `_detect_visual_groups` (source lines
511-523). -/
def vgMatch (threshold : ℚ) (slot1 slot2 : Slot) : Bool :=
  let x_diff := pyAbs (slot1.bounding_box.x - slot2.bounding_box.x)
  let y_diff := pyAbs (slot1.bounding_box.y - slot2.bounding_box.y)
  let horizontal_aligned := decide (y_diff < threshold)
  let vertical_aligned := decide (x_diff < threshold)
  let close_proximity := decide (x_diff + y_diff < threshold * 3)
  (horizontal_aligned || vertical_aligned || close_proximity) &&
    (decide (slot1.role = slot2.role) || close_proximity)

/-- The inner loop of `_detect_visual_groups` (source lines 507-525):
collect matching un-processed slots after the seed, threading the
`processed` set (ids are added as they are matched, which matters when two
slots share an id). -/
def vgCollect (threshold : ℚ) (slot1 : Slot) :
    List Slot → List String → List String × List String
  | [], processed => ([], processed)
  | slot2 :: rest, processed =>
    if slot2.id ∈ processed then vgCollect threshold slot1 rest processed
    else if vgMatch threshold slot1 slot2 then
      let result := vgCollect threshold slot1 rest (processed ++ [slot2.id])
      (slot2.id :: result.1, result.2)
    else vgCollect threshold slot1 rest processed

/-- The outer loop of `_detect_visual_groups` (source lines 500-531).  The
seed's id is added to `processed` before the inner loop runs and stays there
even when the group is discarded. -/
def vgLoop (threshold : ℚ) : List Slot → List String → ℕ →
    List (String × List String) → List (String × List String)
  | [], _, _, acc => acc
  | slot1 :: rest, processed, group_counter, acc =>
    if slot1.id ∈ processed then vgLoop threshold rest processed group_counter acc
    else
      let collected := vgCollect threshold slot1 rest (processed ++ [slot1.id])
      let group := slot1.id :: collected.1
      if 1 < group.length then
        vgLoop threshold rest collected.2 (group_counter + 1)
          (acc ++ [("group-" ++ natStr group_counter, group)])
      else vgLoop threshold rest collected.2 group_counter acc

/-- `_detect_visual_groups` (source lines 494-532). -/
def _detect_visual_groups (slots : List Slot) (threshold : ℚ) :
    List (String × List String) :=
  vgLoop threshold slots [] 0 []

/-- One step of the `pattern_sequence` construction (source lines 542-545):
append the normalized role when it is absent from the sequence so far or
differs from the last appended entry. -/
def patternStep (pattern_sequence : List String) (normalized_role : String) :
    List String :=
  if normalized_role ∉ pattern_sequence ∨
      pattern_sequence.getLast? ≠ some normalized_role then
    pattern_sequence ++ [normalized_role]
  else pattern_sequence

/-- The `pattern_sequence` of `_generate_pattern_summary` (source lines
540-545). -/
def patternSequenceOf (sections : List Section) : List String :=
  sections.foldl (fun seq s => patternStep seq (_normalize_role s.role)) []

/-- Ordered counting dict (Python `dict.get(k, 0) + 1` with insertion
order). -/
def bumpCount (counts : List (String × ℕ)) (key : String) : List (String × ℕ) :=
  if counts.any (fun p => p.1 = key) then
    counts.map fun p => if p.1 = key then (p.1, p.2 + 1) else p
  else counts ++ [(key, 1)]

/-- First entry with the strictly maximal count (Python `max` keeps the
first maximum). -/
def firstMaxCount (counts : List (String × ℕ)) : Option String :=
  (counts.foldl
    (fun acc p =>
      match acc with
      | none => some p
      | some best => if best.2 < p.2 then some p else some best)
    none).map Prod.fst

/-- `_generate_pattern_summary` (source lines 535-578). -/
def _generate_pattern_summary (sections : List Section) (slots : List Slot) :
    PatternSummary :=
  let section_roles := sections.map Section.role
  let slot_roles := slots.map Slot.role
  let pattern_sequence := patternSequenceOf sections
  let features : List (String × Bool) :=
    [("hasNavigation", slot_roles.any fun r => pyIn "navigation" (_normalize_role r)),
     ("hasHero", section_roles.any fun r => pyIn "hero" (_normalize_role r)),
     ("hasCardGrid", section_roles.any fun r => pyIn "card-grid" (_normalize_role r)),
     ("hasFooter", slot_roles.any fun r => pyIn "footer" (_normalize_role r)),
     ("hasImages", slots.any fun s => decide (s.type = "image")),
     ("hasRepeatedGroups", slots.any Slot.repeated)]
  let pattern_type_joined := String.intercalate "-" (pattern_sequence.take 5)
  let pattern_type := if pattern_type_joined = "" then "unknown" else pattern_type_joined
  let layout_types :=
    sections.foldl (fun acc s => bumpCount acc s.layout_hints.displayType) []
  { patternType := pattern_type, patternSequence := pattern_sequence,
    sectionCount := sections.length, slotCount := slots.length,
    features := features, dominantLayout := (firstMaxCount layout_types).getD "flex",
    layoutDistribution := layout_types }

/-- The auth keyword list of `_infer_screen_type` (source lines 588-593). -/
def authKeywords : List String :=
  ["sign in", "sign-in", "signin", "log in", "login", "log-in", "password",
   "email", "create account", "sign up", "signup", "sign-up"]

/-- The dashboard keyword list of `_infer_screen_type` (source lines
609-612). -/
def dashboardKeywords : List String :=
  ["dashboard", "analytics", "metrics", "admin", "admin-panel",
   "control-panel", "admin panel", "control panel"]

/-- `_infer_screen_type` (source lines 581-616). -/
def _infer_screen_type (elements : List ElementInfo) (sections : List Section) :
    String :=
  let roles := sections.map Section.role
  let class_str := pyLower (String.intercalate " "
    (elements.map fun e => String.intercalate " " e.class_names))
  let text_str := pyLower (String.intercalate " " (elements.map fun e => e.text_content))
  if (authKeywords.any fun k => pyIn k text_str) ∨
      (["signin", "login", "auth"].any fun k => pyIn k class_str) then "auth"
  else if pyIn "service" class_str ∨ roles.any (fun r => pyIn "service" r) then "services"
  else if pyIn "pricing" class_str ∨ roles.any (fun r => pyIn "pricing" r) then "pricing"
  else if pyIn "portfolio" class_str ∨ roles.any (fun r => pyIn "portfolio" r) then "portfolio"
  else if pyIn "blog" class_str ∨ pyIn "article" class_str then "blog"
  else if pyIn "landing" class_str ∨ roles.any (fun r => pyIn "hero" r) then "landing"
  else if (dashboardKeywords.any fun k => pyIn k text_str) ∨
      (dashboardKeywords.any fun k => pyIn k class_str) then "dashboard"
  else "page"

/-- The `repeatedGroups` metadata (source lines 896-914): group repeated
slots by role (first-encounter order) and, within a role, by repeated index
(ascending). -/
def buildRepeatedMeta (slots : List Slot) : List (String × RepGroupMeta) :=
  let rep := slots.filter fun s => s.repeated && s.repeated_index.isSome
  let roles := (rep.map Slot.role).eraseDups
  roles.map fun role =>
    let role_slots := rep.filter fun s => decide (s.role = role)
    let idxs := sortedNats (role_slots.filterMap Slot.repeated_index).eraseDups
    ("repeated-" ++ role,
     { role := role, count := idxs.length,
       items := idxs.map fun idx =>
         (idx, (role_slots.filter fun s => decide (s.repeated_index = some idx)).map
            Slot.id) })

/-- An empty pattern summary with the given `patternType` (the empty-input
shell of lines 676-684 and the error shell of lines 970-978). -/
def emptyPatternSummary (patternType : String) : PatternSummary :=
  { patternType := patternType, patternSequence := [], sectionCount := 0,
    slotCount := 0, features := [], dominantLayout := "flex",
    layoutDistribution := [] }

/-- Python `o or dflt` for an optional string. -/
def pyOrStr (o : Option String) (dflt : String) : String :=
  if pyTruthy o then o.getD dflt else dflt

/-- The final component id (source lines 920-922): `component_id or
component_name or 'component-001'`, then overridden by the slugified
component name when one is given. -/
def finalIdOf (component_id component_name : Option String) : String :=
  let fid := pyOrStr component_id (pyOrStr component_name "component-001")
  if pyTruthy component_name then
    ((pyLower (component_name.getD "")).replace " " "-").replace "_" "-"
  else fid

/-- The fault-free branch of `analyze_layout` (source lines 633-962):
viewport defaults, the empty-input shell, and the full pipeline. -/
def analyzeOk (a : AnalyzeInput) (component_id component_name : Option String) :
    LayoutResult :=
  let viewport_width := match a.viewport with | some v => v.1 | none => 1920
  let viewport_height := match a.viewport with | some v => v.2 | none => 1000
  if a.elements = [] then
    { id := pyOrStr component_id "unknown", screenType := "page",
      viewport := (viewport_width, viewport_height),
      patternSummary := emptyPatternSummary "empty",
      grouping := { repeatedGroups := [], visualGroups := [], groupCount := 0 },
      sections := [], slots := [], error := none }
  else
    let significant := significantElements a.elements
    let repeated_groups := _detect_repeated_groups significant (1/10)
    let slots := buildSlotsAux viewport_width viewport_height repeated_groups
      significant.enum 0
    let sections := buildSections slots
    let visual_groups := _detect_visual_groups slots (1/50)
    { id := finalIdOf component_id component_name,
      screenType := _infer_screen_type significant sections,
      viewport := (viewport_width, viewport_height),
      patternSummary := _generate_pattern_summary sections slots,
      grouping := { repeatedGroups := buildRepeatedMeta slots,
                    visualGroups := visual_groups,
                    groupCount := visual_groups.length },
      sections := sections, slots := slots.map toOutSlot, error := none }

/-- `analyze_layout` (source lines 619-987).  A fault-free collection phase
is an `Except.ok` input; an exception escaping the pipeline (for example the
accessor throwing during the viewport read) is an `Except.error` carrying
`str(e)`, handled by the top-level `except` clause of lines 964-987. -/
def analyze_layout (input : Except String AnalyzeInput)
    (component_id component_name : Option String) : LayoutResult :=
  match input with
  | Except.ok a => analyzeOk a component_id component_name
  | Except.error e =>
      { id := pyOrStr component_id "unknown", screenType := "page",
        viewport := (1920, 1000), patternSummary := emptyPatternSummary "unknown",
        grouping := { repeatedGroups := [], visualGroups := [], groupCount := 0 },
        sections := [], slots := [], error := some e }

/-- A plain visible `div` container with children, used by the concrete
runs below. -/
def mkContainer (domId : Option String) (x y w h : ℚ) : ElementInfo :=
  { tag := "div", bounding_box := { x := x, y := y, width := w, height := h },
    text_content := "x", class_names := [], id := domId, role := none,
    element_type := "container", is_visible := true, has_children := true,
    computed_display := some "block", backgroundImage := "",
    animations := none, component_info := none }

/-- A plain visible `img` element, used by the concrete runs below. -/
def mkImage (x y w h : ℚ) : ElementInfo :=
  { tag := "img", bounding_box := { x := x, y := y, width := w, height := h },
    text_content := "", class_names := [], id := none, role := none,
    element_type := "image", is_visible := true, has_children := false,
    computed_display := some "inline", backgroundImage := "",
    animations := none, component_info := none }

/-- Two collected containers: the second carries the DOM id
`content-block-0`, which collides with the generated id of the first. -/
def exDupIds : List ElementInfo :=
  [mkContainer none 0 400 100 100,
   mkContainer (some "content-block-0") 0 400 100 100]

/-- A single collected container (no DOM id). -/
def exSingleContainer : List ElementInfo := [mkContainer none 0 400 100 100]

/-- A single collected image of 24 x 1000 px: its width/height ratio admits
no `num:denom` approximation with denominator at most 20 within tolerance
1/100, so the aspect simplifier returns `None`. -/
def exThinImage : List ElementInfo := [mkImage 0 400 24 1000]

/-- A single collected image of 1600 x 900 px (aspect `16:9`). -/
def exWideImage : List ElementInfo := [mkImage 0 400 1600 900]

/-- A single collected image of 30 x 500 px: its width is below the 50 px
threshold but its height is not. -/
def exNarrowImage : List ElementInfo := [mkImage 0 400 30 500]

/-- Three containers of widths 100, 109 and 118 px (same height): adjacent
widths differ by less than 10 percent of the larger, the outer pair by
more. -/
def exChain : List ElementInfo :=
  [mkContainer none 0 0 100 100,
   mkContainer none 0 0 109 100,
   mkContainer none 0 0 118 100]

/-- Three containers of widths 100, 93.5 and 110 px (same height): both
outer elements are within 10 percent of the seed, while their own widths
differ by exactly 15 percent of the larger. -/
def exSpread : List ElementInfo :=
  [mkContainer none 0 0 100 100,
   mkContainer none 0 0 (187/2) 100,
   mkContainer none 0 0 110 100]

/-- A tiny (10 x 10 px) `span` with non-empty text: collected, classified
`text`, but below the 20 px significance threshold. -/
def exTinySpan : List ElementInfo :=
  [{ tag := "span", bounding_box := { x := 0, y := 0, width := 10, height := 10 },
     text_content := "hi", class_names := [], id := none, role := none,
     element_type := "text", is_visible := true, has_children := false,
     computed_display := some "inline", backgroundImage := "",
     animations := none, component_info := none }]

/-- A 100 x 40 px CTA `button` with class `cta` and non-empty text, whose
`element_type` is the classifier's output for its tag and class list. -/
def ctaButton : ElementInfo :=
  { tag := "button", bounding_box := { x := 0, y := 500, width := 100, height := 40 },
    text_content := "Buy", class_names := ["cta"], id := none, role := none,
    element_type := elementTypeOf "button" ["cta"] "",
    is_visible := true, has_children := false,
    computed_display := some "inline-block", backgroundImage := "",
    animations := none, component_info := none }

/-- The closed set of raw role strings `_infer_semantic_role` can return. -/
def rawRoles : List String :=
  ["hero-split", "hero", "card-item", "card-grid", "navigation", "headline",
   "subhead", "cta", "hero-image", "image", "content-block"]

/-- The sample slot emitted for a 100 x 100 px container at y = 400 with no
DOM id (viewport 1920 x 1000, counter 0), used by witnesses below. -/
def sampleContainerSlot : Slot :=
  { id := "slot-content-block-0", type := "container", role := "content",
    bounding_box := { x := 0, y := 2/5, width := 521/10000, height := 1/10 },
    aspect := none, repeated := false, repeated_index := none,
    animations := none, component_info := none }

/-- The slot emitted for `ctaButton` (viewport 1920 x 1000, index 0,
counter 0, no repeated groups), used by witnesses below. -/
def sampleCtaSlot : Slot :=
  { id := "slot-cta-0", type := "container", role := "cta",
    bounding_box := { x := 0, y := 1/2, width := 521/10000, height := 1/25 },
    aspect := none, repeated := false, repeated_index := none,
    animations := none, component_info := none }

/-- The output slot produced for the single 1600 x 900 image of
`exWideImage` (viewport 1920 x 1000), used by witnesses below. -/
def sampleImageOutSlot : OutSlot :=
  { id := "slot-image-0", type := "image", role := "image",
    boundingBox := { x := 0, y := 2/5, width := 8333/10000, height := 9/10 },
    aspect := some "16:9", repeatedKeys := none,
    animations := none, componentInfo := none }

theorem pyFloor_nonneg {q : ℚ} (hq : 0 ≤ q) : 0 ≤ pyFloor q :=
  Int.fdiv_nonneg (Rat.num_nonneg.mpr hq) (Int.natCast_nonneg q.den)

theorem pyRoundInt_nonneg {q : ℚ} (hq : 0 ≤ q) : 0 ≤ pyRoundInt q := by
  have h0 := pyFloor_nonneg hq
  unfold pyRoundInt
  dsimp only
  split
  · exact h0
  · split
    · omega
    · split <;> omega

theorem pyRound4_nonneg {q : ℚ} (hq : 0 ≤ q) : 0 ≤ pyRound4 q := by
  unfold pyRound4
  have h1 : (0:ℚ) ≤ (pyRoundInt (q * 10000) : ℚ) := by
    exact_mod_cast pyRoundInt_nonneg (by positivity)
  positivity

theorem natCharsAux_congr :
    ∀ (fuel1 : ℕ) (fuel2 n : ℕ), n < fuel1 → n < fuel2 →
      natCharsAux fuel1 n = natCharsAux fuel2 n := by
  intro fuel1
  induction fuel1 with
  | zero => intro fuel2 n h1 _; omega
  | succ f1 ih =>
    intro fuel2 n h1 h2
    cases fuel2 with
    | zero => omega
    | succ f2 =>
      by_cases h10 : n < 10
      · simp [natCharsAux, h10]
      · simp only [natCharsAux, h10, if_false]
        rw [ih f2 (n / 10) (by omega) (by omega)]

theorem natChars_lt10 {n : ℕ} (h : n < 10) : natChars n = [Nat.digitChar n] := by
  unfold natChars natCharsAux
  simp [h]

theorem natChars_ge10 {n : ℕ} (h : ¬n < 10) :
    natChars n = natChars (n / 10) ++ [Nat.digitChar (n % 10)] := by
  unfold natChars
  have h1 : natCharsAux (n + 1) n =
      natCharsAux n (n / 10) ++ [Nat.digitChar (n % 10)] := by
    simp [natCharsAux, h]
  rw [h1, natCharsAux_congr n (n / 10 + 1) (n / 10) (by omega) (by omega)]

theorem natChars_ne_nil (n : ℕ) : natChars n ≠ [] := by
  by_cases h : n < 10
  · rw [natChars_lt10 h]; simp
  · rw [natChars_ge10 h]; simp

theorem natChars_digits (n : ℕ) : ∀ c ∈ natChars n, c.isDigit = true := by
  induction n using Nat.strong_induction_on with
  | _ n ih =>
    have hdig : ∀ m : ℕ, m < 10 → (Nat.digitChar m).isDigit = true := by decide
    by_cases h : n < 10
    · rw [natChars_lt10 h]
      intro c hc
      simp only [List.mem_singleton] at hc
      subst hc
      exact hdig n h
    · rw [natChars_ge10 h]
      intro c hc
      rcases List.mem_append.mp hc with h1 | h2
      · exact ih (n / 10) (Nat.div_lt_self (by omega) (by omega)) c h1
      · simp only [List.mem_singleton] at h2
        subst h2
        exact hdig (n % 10) (Nat.mod_lt _ (by omega))

theorem natChars_inj (m : ℕ) : ∀ n : ℕ, natChars m = natChars n → m = n := by
  induction m using Nat.strong_induction_on with
  | _ m ih =>
    intro n h
    have hdiginj : ∀ a : ℕ, a < 10 → ∀ b : ℕ, b < 10 →
        Nat.digitChar a = Nat.digitChar b → a = b := by decide
    by_cases hm : m < 10 <;> by_cases hn : n < 10
    · rw [natChars_lt10 hm, natChars_lt10 hn] at h
      exact hdiginj m hm n hn (List.singleton_inj.mp h)
    · rw [natChars_lt10 hm, natChars_ge10 hn] at h
      have := congrArg List.length h
      simp at this
      exact absurd this (natChars_ne_nil (n / 10))
    · rw [natChars_ge10 hm, natChars_lt10 hn] at h
      have := congrArg List.length h
      simp at this
      exact absurd this (natChars_ne_nil (m / 10))
    · rw [natChars_ge10 hm, natChars_ge10 hn] at h
      obtain ⟨h1, h2⟩ := List.append_inj' h (by simp)
      have e1 : m / 10 = n / 10 := ih (m / 10) (Nat.div_lt_self (by omega) (by omega)) _ h1
      have e2 : m % 10 = n % 10 :=
        hdiginj _ (Nat.mod_lt _ (by omega)) _ (Nat.mod_lt _ (by omega))
          (List.singleton_inj.mp h2)
      omega

theorem takeWhile_all_append {p : Char → Bool} :
    ∀ (l1 : List Char) (x : Char) (l2 : List Char),
      (∀ c ∈ l1, p c = true) → p x = false →
      (l1 ++ x :: l2).takeWhile p = l1 := by
  intro l1 x l2 h1 hx
  induction l1 with
  | nil => simp [List.takeWhile_cons, hx]
  | cons a as ih =>
    have ha : p a = true := h1 a (by simp)
    simp only [List.cons_append, List.takeWhile_cons, ha, if_true]
    rw [ih fun c hc => h1 c (by simp [hc])]

theorem dash_digits_inj {u v d1 d2 : List Char}
    (hu : ∀ c ∈ u, c.isDigit = false) (hv : ∀ c ∈ v, c.isDigit = false)
    (hd1 : ∀ c ∈ d1, c.isDigit = true) (hd2 : ∀ c ∈ d2, c.isDigit = true)
    (h : u ++ '-' :: d1 = v ++ '-' :: d2) : u = v ∧ d1 = d2 := by
  have hrev := congrArg List.reverse h
  have e1 : d1.reverse ++ '-' :: u.reverse = d2.reverse ++ '-' :: v.reverse := by
    simpa [List.reverse_append, List.append_assoc] using hrev
  have hdash : ('-').isDigit = false := by decide
  have t1 : (d1.reverse ++ '-' :: u.reverse).takeWhile Char.isDigit = d1.reverse :=
    takeWhile_all_append _ _ _ (fun c hc => hd1 c (List.mem_reverse.mp hc)) hdash
  have t2 : (d2.reverse ++ '-' :: v.reverse).takeWhile Char.isDigit = d2.reverse :=
    takeWhile_all_append _ _ _ (fun c hc => hd2 c (List.mem_reverse.mp hc)) hdash
  have hd : d1 = d2 := by
    have := t1.symm.trans ((congrArg (List.takeWhile Char.isDigit) e1).trans t2)
    exact List.reverse_inj.mp this
  subst hd
  exact ⟨List.append_cancel_right h, rfl⟩

theorem rawRoles_digit_free : ∀ r ∈ rawRoles, ∀ c ∈ r.data, c.isDigit = false := by
  decide

theorem natStr_data (n : ℕ) : (natStr n).data = natChars n := rfl

theorem genId_inj {r1 r2 : String} {k1 k2 : ℕ}
    (h1 : r1 ∈ rawRoles) (h2 : r2 ∈ rawRoles)
    (h : "slot-" ++ r1 ++ "-" ++ natStr k1 = "slot-" ++ r2 ++ "-" ++ natStr k2) :
    r1 = r2 ∧ k1 = k2 := by
  have hd := congrArg String.data h
  simp only [String.data_append, natStr_data] at hd
  have hd2 : r1.data ++ '-' :: natChars k1 = r2.data ++ '-' :: natChars k2 := by
    simp only [List.append_assoc, List.cons_append, List.nil_append, List.cons.injEq,
      true_and] at hd
    simpa using hd
  obtain ⟨hr, hk⟩ := dash_digits_inj (rawRoles_digit_free r1 h1)
    (rawRoles_digit_free r2 h2) (natChars_digits k1) (natChars_digits k2) hd2
  exact ⟨String.ext hr, natChars_inj k1 k2 hk⟩

theorem mem_ite_list {α : Type} {c : Prop} [Decidable c] {a b : α} {l : List α}
    (h1 : c → a ∈ l) (h2 : ¬c → b ∈ l) : (if c then a else b) ∈ l := by
  by_cases h : c
  · rw [if_pos h]; exact h1 h
  · rw [if_neg h]; exact h2 h

theorem rawRoleOf_mem (viewport_height : ℚ) (e : ElementInfo) :
    rawRoleOf viewport_height e ∈ rawRoles := by
  unfold rawRoleOf _infer_semantic_role
  refine mem_ite_list (fun _ => ?_) (fun _ => ?_)
  · refine mem_ite_list (fun _ => ?_) (fun _ => ?_) <;> decide
  · refine mem_ite_list (fun _ => ?_) (fun _ => ?_)
    · decide
    · refine mem_ite_list (fun _ => ?_) (fun _ => ?_)
      · decide
      · refine mem_ite_list (fun _ => ?_) (fun _ => ?_)
        · decide
        · refine mem_ite_list (fun _ => ?_) (fun _ => ?_)
          · decide
          · refine mem_ite_list (fun _ => ?_) (fun _ => ?_)
            · decide
            · refine mem_ite_list (fun _ => ?_) (fun _ => ?_)
              · decide
              · refine mem_ite_list (fun _ => ?_) (fun _ => ?_)
                · refine mem_ite_list (fun _ => ?_) (fun _ => ?_) <;> decide
                · decide

theorem mem_of_getLast?_eq {α : Type} : ∀ {l : List α} {a : α},
    l.getLast? = some a → a ∈ l := by
  intro l
  induction l with
  | nil => intro a h; simp at h
  | cons b bs ih =>
    intro a h
    cases bs with
    | nil =>
      simp only [List.getLast?_singleton, Option.some_inj] at h
      subst h
      simp
    | cons c cs =>
      rw [List.getLast?_cons_cons] at h
      exact List.mem_cons_of_mem _ (ih h)

theorem patternStep_eq (seq : List String) (r : String) :
    patternStep seq r = if seq.getLast? = some r then seq else seq ++ [r] := by
  unfold patternStep
  by_cases hl : seq.getLast? = some r
  · have hmem : r ∈ seq := mem_of_getLast?_eq hl
    simp [hl, hmem]
  · simp [hl]

theorem foldl_patternStep_destutter (l : List String) :
    ∀ (acc : List String) (a : String),
      l.foldl patternStep (acc ++ [a]) = acc ++ List.destutter' (· ≠ ·) a l := by
  induction l with
  | nil => intro acc a; simp [List.destutter']
  | cons b bs ih =>
    intro acc a
    rw [List.foldl_cons, patternStep_eq]
    have hlast : (acc ++ [a]).getLast? = some a := by
      rw [List.getLast?_append]
      rfl
    by_cases hab : a = b
    · subst hab
      rw [if_pos (by rw [hlast]), ih acc a,
        List.destutter'_cons_neg bs (fun hne => hne rfl)]
    · rw [if_neg (by rw [hlast]; exact fun hc => hab (Option.some_inj.mp hc)),
        List.append_assoc acc [a] [b]]
      rw [show acc ++ ([a] ++ [b]) = (acc ++ [a]) ++ [b] by simp]
      rw [ih (acc ++ [a]) b, List.destutter'_cons_pos bs hab, List.append_assoc]
      rfl

theorem patternSequenceOf_destutter (sections : List Section) :
    patternSequenceOf sections =
      (sections.map fun s => _normalize_role s.role).destutter (· ≠ ·) := by
  unfold patternSequenceOf
  rw [← List.foldl_map (fun s : Section => _normalize_role s.role) patternStep sections []]
  generalize sections.map (fun s : Section => _normalize_role s.role) = l
  cases l with
  | nil => simp [List.destutter]
  | cons r rs =>
    rw [List.foldl_cons, List.destutter_cons']
    have h0 : patternStep [] r = [] ++ [r] := by
      rw [patternStep_eq]
      simp
    rw [h0, foldl_patternStep_destutter rs [] r]
    simp

theorem emittedSlot_type (viewport_width viewport_height : ℚ)
    (repeated_groups : List (ℕ × List ℕ)) (i slot_counter : ℕ)
    (element : ElementInfo) (slot_type : String) :
    (emittedSlot viewport_width viewport_height repeated_groups i slot_counter
      element slot_type).type = slot_type := rfl

theorem emittedSlot_aspect (viewport_width viewport_height : ℚ)
    (repeated_groups : List (ℕ × List ℕ)) (i slot_counter : ℕ)
    (element : ElementInfo) (slot_type : String) :
    (emittedSlot viewport_width viewport_height repeated_groups i slot_counter
      element slot_type).aspect =
      if slot_type = "image" then
        _simplify_ratio element.bounding_box.width element.bounding_box.height (1/100)
      else none := rfl

theorem emittedSlot_id (viewport_width viewport_height : ℚ)
    (repeated_groups : List (ℕ × List ℕ)) (i slot_counter : ℕ)
    (element : ElementInfo) (slot_type : String) :
    (emittedSlot viewport_width viewport_height repeated_groups i slot_counter
      element slot_type).id =
      match element.id with
      | some d =>
          if d ≠ "" then "slot-" ++ d
          else "slot-" ++ rawRoleOf viewport_height element ++ "-" ++ natStr slot_counter
      | none =>
          "slot-" ++ rawRoleOf viewport_height element ++ "-" ++ natStr slot_counter := rfl

theorem slotStep_some {viewport_width viewport_height : ℚ}
    {repeated_groups : List (ℕ × List ℕ)} {i slot_counter : ℕ}
    {element : ElementInfo} {s : Slot}
    (h : slotStep viewport_width viewport_height repeated_groups i slot_counter
      element = some s) :
    ∃ slot_type, slotTypeOf element = some slot_type ∧
      s = emittedSlot viewport_width viewport_height repeated_groups i slot_counter
        element slot_type := by
  unfold slotStep at h
  split at h
  · exact absurd h (by simp)
  · split at h
    · exact absurd h (by simp)
    · obtain ⟨st, hst, he⟩ := Option.map_eq_some'.mp h
      exact ⟨st, hst, he.symm⟩

theorem slotStep_small_nontext {viewport_width viewport_height : ℚ}
    {repeated_groups : List (ℕ × List ℕ)} {i slot_counter : ℕ}
    {element : ElementInfo}
    (hw : element.bounding_box.width < 50) (hh : element.bounding_box.height < 50)
    (ht : element.element_type ≠ "text") :
    slotStep viewport_width viewport_height repeated_groups i slot_counter
      element = none := by
  unfold slotStep
  rw [if_pos ⟨hw, hh, ht⟩]

theorem slotStep_text {viewport_width viewport_height : ℚ}
    {repeated_groups : List (ℕ × List ℕ)} {i slot_counter : ℕ}
    {element : ElementInfo} (ht : element.element_type = "text") :
    slotStep viewport_width viewport_height repeated_groups i slot_counter element =
      (slotTypeOf element).map
        (emittedSlot viewport_width viewport_height repeated_groups i slot_counter
          element) := by
  unfold slotStep
  rw [if_neg (fun hc => hc.2.2 ht), if_neg (fun hc => by
    rw [ht] at hc
    exact absurd hc.1 (by decide))]

theorem slotTypeOf_text_inline {element : ElementInfo}
    (ht : element.element_type = "text")
    (htag : element.tag ∉ ["h1", "h2", "h3", "h4", "h5", "h6", "p"]) :
    slotTypeOf element =
      if element.text_content = "" ∧ element.has_children = false then none
      else some "container" := by
  unfold slotTypeOf
  rw [if_neg (fun hc => by rw [ht] at hc; exact absurd hc.1 (by decide)),
    if_neg (fun hc => htag hc.2), if_neg (by rw [ht]; decide)]
  by_cases hc : element.text_content = "" ∧ ¬element.has_children = true
  · rw [if_pos hc, if_pos ⟨hc.1, by simpa using hc.2⟩]
  · rw [if_neg hc, if_neg (fun hc2 => hc ⟨hc2.1, by simp [hc2.2]⟩)]

theorem buildSlotsAux_mem {viewport_width viewport_height : ℚ}
    {repeated_groups : List (ℕ × List ℕ)} :
    ∀ (ies : List (ℕ × ElementInfo)) (c : ℕ) (s : Slot),
      s ∈ buildSlotsAux viewport_width viewport_height repeated_groups ies c →
      ∃ p ∈ ies, ∃ k, c ≤ k ∧
        slotStep viewport_width viewport_height repeated_groups p.1 k p.2 = some s := by
  intro ies
  induction ies with
  | nil => intro c s hs; simp [buildSlotsAux] at hs
  | cons pe rest ih =>
    intro c s hs
    obtain ⟨i, e⟩ := pe
    rw [buildSlotsAux] at hs
    cases hstep : slotStep viewport_width viewport_height repeated_groups i c e with
    | none =>
      rw [hstep] at hs
      obtain ⟨p, hp, k, hk, h⟩ := ih c s hs
      exact ⟨p, List.mem_cons_of_mem _ hp, k, hk, h⟩
    | some t =>
      rw [hstep] at hs
      rcases List.mem_cons.mp hs with h1 | h2
      · exact ⟨(i, e), List.mem_cons_self _ _, c, le_rfl, by rw [hstep, h1]⟩
      · obtain ⟨p, hp, k, hk, h⟩ := ih (c + 1) s h2
        exact ⟨p, List.mem_cons_of_mem _ hp, k, by omega, h⟩

theorem buildSlotsAux_get {viewport_width viewport_height : ℚ}
    {repeated_groups : List (ℕ × List ℕ)} :
    ∀ (ies : List (ℕ × ElementInfo)) (c n : ℕ)
      (h : n < (buildSlotsAux viewport_width viewport_height repeated_groups ies c).length),
      ∃ p ∈ ies, slotStep viewport_width viewport_height repeated_groups p.1 (c + n) p.2 =
        some ((buildSlotsAux viewport_width viewport_height repeated_groups ies c).get
          ⟨n, h⟩) := by
  intro ies
  induction ies with
  | nil => intro c n h; simp [buildSlotsAux] at h
  | cons pe rest ih =>
    intro c n h
    obtain ⟨i, e⟩ := pe
    revert h
    rw [buildSlotsAux]
    cases hstep : slotStep viewport_width viewport_height repeated_groups i c e with
    | none =>
      intro h
      obtain ⟨p, hp, hs⟩ := ih c n h
      exact ⟨p, List.mem_cons_of_mem _ hp, hs⟩
    | some t =>
      intro h
      cases n with
      | zero => exact ⟨(i, e), List.mem_cons_self _ _, by simpa using hstep⟩
      | succ m =>
        obtain ⟨p, hp, hs⟩ := ih (c + 1) m (by simpa using Nat.lt_of_succ_lt_succ h)
        refine ⟨p, List.mem_cons_of_mem _ hp, ?_⟩
        rw [show c + (m + 1) = c + 1 + m by omega]
        simpa using hs

theorem slotStep_gen_id {viewport_width viewport_height : ℚ}
    {repeated_groups : List (ℕ × List ℕ)} {i slot_counter : ℕ}
    {element : ElementInfo} {s : Slot}
    (hid : element.id = none)
    (h : slotStep viewport_width viewport_height repeated_groups i slot_counter
      element = some s) :
    ∃ r ∈ rawRoles, s.id = "slot-" ++ r ++ "-" ++ natStr slot_counter := by
  obtain ⟨st, _, rfl⟩ := slotStep_some h
  refine ⟨rawRoleOf viewport_height element, rawRoleOf_mem _ _, ?_⟩
  rw [emittedSlot_id, hid]

theorem buildSlotsAux_ids {viewport_width viewport_height : ℚ}
    {repeated_groups : List (ℕ × List ℕ)} :
    ∀ (ies : List (ℕ × ElementInfo)) (c : ℕ),
      (∀ p ∈ ies, p.2.id = none) →
      (∀ s ∈ buildSlotsAux viewport_width viewport_height repeated_groups ies c,
        ∃ r ∈ rawRoles, ∃ k, c ≤ k ∧ s.id = "slot-" ++ r ++ "-" ++ natStr k) ∧
      (buildSlotsAux viewport_width viewport_height repeated_groups ies c).Pairwise
        (fun a b => a.id ≠ b.id) := by
  intro ies
  induction ies with
  | nil => intro c _; simp [buildSlotsAux]
  | cons pe rest ih =>
    intro c hids
    obtain ⟨i, e⟩ := pe
    have hide : e.id = none := hids (i, e) (List.mem_cons_self _ _)
    have hrest : ∀ p ∈ rest, p.2.id = none :=
      fun p hp => hids p (List.mem_cons_of_mem _ hp)
    rw [buildSlotsAux]
    cases hstep : slotStep viewport_width viewport_height repeated_groups i c e with
    | none => exact ih c hrest
    | some t =>
      obtain ⟨ihmem, ihpw⟩ := ih (c + 1) hrest
      obtain ⟨r0, hr0, hid0⟩ := slotStep_gen_id hide hstep
      constructor
      · intro s hs
        rcases List.mem_cons.mp hs with h1 | h2
        · exact ⟨r0, hr0, c, le_rfl, by rw [h1, hid0]⟩
        · obtain ⟨r, hr, k, hk, hid⟩ := ihmem s h2
          exact ⟨r, hr, k, by omega, hid⟩
      · refine List.Pairwise.cons ?_ ihpw
        intro t2 ht2 heq
        obtain ⟨r2, hr2, k2, hk2, hid2⟩ := ihmem t2 ht2
        rw [hid0, hid2] at heq
        obtain ⟨-, hkk⟩ := genId_inj hr0 hr2 heq
        omega

theorem detectRepeatedGroupsGo_props (elems : List ElementInfo) (threshold : ℚ) :
    ∀ (idxs processed : List ℕ) (groups : List (ℕ × List ℕ)),
      (∀ g ∈ groups, ∀ j ∈ g.2, j ∈ processed) →
      groups.Pairwise (fun g1 g2 => ∀ j ∈ g1.2, j ∉ g2.2) →
      (∀ g ∈ groups, 2 ≤ g.2.length) →
      (∀ g ∈ groups, ∀ j ∈ g.2, j = g.1 ∨ ∃ e1 e2, elems.get? g.1 = some e1 ∧
        elems.get? j = some e2 ∧ similarDims threshold e1 e2 = true) →
      (detectRepeatedGroupsGo elems threshold idxs processed groups).Pairwise
        (fun g1 g2 => ∀ j ∈ g1.2, j ∉ g2.2) ∧
      (∀ g ∈ detectRepeatedGroupsGo elems threshold idxs processed groups,
        2 ≤ g.2.length) ∧
      (∀ g ∈ detectRepeatedGroupsGo elems threshold idxs processed groups,
        ∀ j ∈ g.2, j = g.1 ∨ ∃ e1 e2, elems.get? g.1 = some e1 ∧
          elems.get? j = some e2 ∧ similarDims threshold e1 e2 = true) := by
  intro idxs
  induction idxs with
  | nil => intro processed groups h1 h2 h3 h4; exact ⟨h2, h3, h4⟩
  | cons i rest ih =>
    intro processed groups h1 h2 h3 h4
    rw [detectRepeatedGroupsGo]
    by_cases hip : i ∈ processed
    · rw [if_pos hip]; exact ih processed groups h1 h2 h3 h4
    · rw [if_neg hip]
      cases hget : elems.get? i with
      | none => exact ih processed groups h1 h2 h3 h4
      | some elem1 =>
        dsimp only
        set others := rest.filter (fun j =>
          decide (j ∉ processed) &&
            (match elems.get? j with
             | some elem2 => similarDims threshold elem1 elem2
             | none => false)) with hothers
        by_cases hlen : 1 < (i :: others).length
        · rw [if_pos hlen]
          have hothers_props : ∀ j ∈ others, j ∉ processed ∧
              ∃ e2, elems.get? j = some e2 ∧ similarDims threshold elem1 e2 = true := by
            intro j hj
            have hmf := List.mem_filter.mp hj
            have hpred := hmf.2
            rw [Bool.and_eq_true] at hpred
            refine ⟨by simpa using hpred.1, ?_⟩
            rcases hg2 : elems.get? j with _ | e2
            · rw [hg2] at hpred; simp at hpred
            · rw [hg2] at hpred
              exact ⟨e2, rfl, hpred.2⟩
          apply ih
          · -- members of all groups lie in the grown processed set
            intro g hg j hj
            rcases List.mem_append.mp hg with hold | hnew
            · have := h1 g hold j hj
              exact List.mem_append_left _ (List.mem_append_left _ this)
            · have : g = (i, i :: others) := by simpa using hnew
              subst this
              rcases List.mem_cons.mp hj with h5 | h5
              · subst h5; exact List.mem_append_right _ (by simp)
              · exact List.mem_append_left _ (List.mem_append_right _ h5)
          · -- pairwise disjointness including the new group
            rw [List.pairwise_append]
            refine ⟨h2, by simp, ?_⟩
            intro g hgold gnew hgnew j hj
            have hgn : gnew = (i, i :: others) := by simpa using hgnew
            subst hgn
            have hjp := h1 g hgold j hj
            intro hjn
            rcases List.mem_cons.mp hjn with h5 | h5
            · subst h5; exact hip hjp
            · exact (hothers_props j h5).1 hjp
          · -- all groups have at least two members
            intro g hg
            rcases List.mem_append.mp hg with hold | hnew
            · exact h3 g hold
            · have : g = (i, i :: others) := by simpa using hnew
              subst this
              simpa using hlen
          · -- members are similar to the seed
            intro g hg j hj
            rcases List.mem_append.mp hg with hold | hnew
            · exact h4 g hold j hj
            · have : g = (i, i :: others) := by simpa using hnew
              subst this
              rcases List.mem_cons.mp hj with h5 | h5
              · exact Or.inl h5
              · obtain ⟨-, e2, hg2, hsim⟩ := hothers_props j h5
                exact Or.inr ⟨elem1, e2, hget, hg2, hsim⟩
        · rw [if_neg hlen]
          exact ih processed groups h1 h2 h3 h4

unseal Rat.add Rat.mul Rat.inv Rat.sub in
/-- C3 counterexample: the pixel box `{x: -100, y: 0, width: 100, height:
100}` (an element scrolled off the left edge; the collector only rejects
boxes with zero width or height, not negative coordinates) normalizes under
the positive 1920 x 1000 viewport to a negative `x`, refuting the claim that
every normalized component is at least 0. -/
theorem normalize_bbox_negative_cex :
    (_normalize_bounding_box ⟨-100, 0, 100, 100⟩ 1920 1000).x < 0 := by decide

/-- C3 (amended): for a nonnegative pixel box and positive viewport
dimensions, every normalized component is nonnegative and is an integer
multiple of 1/10^4 (rounding to exactly 4 decimal places); when a viewport
dimension is zero the pixel box is passed through unchanged. -/
theorem normalize_bbox_nonneg_round4 :
    (∀ (bbox : PyBBox) (vw vh : ℚ), 0 < vw → 0 < vh →
      0 ≤ bbox.x → 0 ≤ bbox.y → 0 ≤ bbox.width → 0 ≤ bbox.height →
      (0 ≤ (_normalize_bounding_box bbox vw vh).x ∧
       0 ≤ (_normalize_bounding_box bbox vw vh).y ∧
       0 ≤ (_normalize_bounding_box bbox vw vh).width ∧
       0 ≤ (_normalize_bounding_box bbox vw vh).height) ∧
      (∃ zx zy zw zh : ℤ,
        (_normalize_bounding_box bbox vw vh).x = (zx : ℚ) / 10000 ∧
        (_normalize_bounding_box bbox vw vh).y = (zy : ℚ) / 10000 ∧
        (_normalize_bounding_box bbox vw vh).width = (zw : ℚ) / 10000 ∧
        (_normalize_bounding_box bbox vw vh).height = (zh : ℚ) / 10000)) ∧
    (∀ (bbox : PyBBox) (vw vh : ℚ), vw = 0 ∨ vh = 0 →
      _normalize_bounding_box bbox vw vh = bbox) := by
  constructor
  · intro bbox vw vh hvw hvh hx hy hw hh
    have hne : ¬(vw = 0 ∨ vh = 0) := by
      rintro (h | h)
      · exact absurd h (ne_of_gt hvw)
      · exact absurd h (ne_of_gt hvh)
    unfold _normalize_bounding_box
    rw [if_neg hne]
    refine ⟨⟨?_, ?_, ?_, ?_⟩,
      pyRoundInt (bbox.x / vw * 10000), pyRoundInt (bbox.y / vh * 10000),
      pyRoundInt (bbox.width / vw * 10000), pyRoundInt (bbox.height / vh * 10000),
      rfl, rfl, rfl, rfl⟩
    · exact pyRound4_nonneg (div_nonneg hx hvw.le)
    · exact pyRound4_nonneg (div_nonneg hy hvh.le)
    · exact pyRound4_nonneg (div_nonneg hw hvw.le)
    · exact pyRound4_nonneg (div_nonneg hh hvh.le)
  · intro bbox vw vh h0
    unfold _normalize_bounding_box
    rw [if_pos h0]

unseal Rat.add Rat.mul Rat.inv Rat.sub in
/-- Witness for the amended C3 at the concrete box (100, 200, 300, 400)
under the 1920 x 1000 viewport, and the zero-viewport pass-through at a
concrete box. -/
theorem normalize_bbox_nonneg_round4_witness :
    (0 ≤ (_normalize_bounding_box ⟨100, 200, 300, 400⟩ 1920 1000).x) ∧
    _normalize_bounding_box ⟨7, 8, 9, 10⟩ 0 1000 = ⟨7, 8, 9, 10⟩ :=
  ⟨((normalize_bbox_nonneg_round4.1 ⟨100, 200, 300, 400⟩ 1920 1000 (by decide) (by decide)
      (by decide) (by decide) (by decide) (by decide)).1).1,
   normalize_bbox_nonneg_round4.2 ⟨7, 8, 9, 10⟩ 0 1000 (Or.inl rfl)⟩

/-- C4 counterexample: when the escaping exception's message is empty
(`str(e) == ""`, for example `Exception()`), the returned result's `error`
field is the empty string, refuting the claim that it is always a non-empty
string. -/
theorem pipeline_error_empty_message_cex :
    (analyze_layout (Except.error "") none none).error = some "" ∧
    ("" : String).length = 0 :=
  ⟨rfl, rfl⟩

/-- C4 (amended): the analysis entry point is a total function; when an
exception escapes the pipeline it returns a structurally valid result whose
`error` field carries exactly the exception's message (non-empty whenever
the message is non-empty, but empty when the message is empty), with the
fallback 1920 x 1000 viewport and empty sections and slots, instead of
propagating the exception. -/
theorem pipeline_error_fallback (e : String) (cid cname : Option String) :
    (analyze_layout (Except.error e) cid cname).error = some e ∧
    (analyze_layout (Except.error e) cid cname).viewport = (1920, 1000) ∧
    (analyze_layout (Except.error e) cid cname).sections = [] ∧
    (analyze_layout (Except.error e) cid cname).slots = [] ∧
    (e ≠ "" → ∀ msg, (analyze_layout (Except.error e) cid cname).error = some msg →
      msg ≠ "") := by
  refine ⟨rfl, rfl, rfl, rfl, ?_⟩
  intro he msg hmsg
  have hEq : e = msg := Option.some_inj.mp hmsg
  rw [← hEq]
  exact he

/-- Witness for the amended C4: a concrete non-empty exception message. -/
theorem pipeline_error_fallback_witness :
    (analyze_layout (Except.error "boom") none none).error = some "boom" ∧
    ("boom" : String) ≠ "" :=
  ⟨(pipeline_error_fallback "boom" none none).1,
   (pipeline_error_fallback "boom" none none).2.2.2.2 (by decide) "boom"
     (pipeline_error_fallback "boom" none none).1⟩

unseal Rat.add Rat.mul Rat.inv Rat.sub in
/-- C5: the aspect-ratio simplifier returns `None` when the height is zero;
it evaluates to `16:9` on (1600, 900) and to `1:1` on (500, 500); when some
common ratio is within tolerance 1/100 of width/height it returns the label
of the first such table entry, and otherwise it returns the best `num:denom`
approximation over denominators 1..20 within the tolerance (which is `None`
when nothing qualifies). -/
theorem simplify_ratio_spec :
    (∀ w : ℚ, _simplify_ratio w 0 (1/100) = none) ∧
    _simplify_ratio 1600 900 (1/100) = some "16:9" ∧
    _simplify_ratio 500 500 (1/100) = some "1:1" ∧
    (∀ w h : ℚ, h ≠ 0 → ∀ t ∈ commonRatios,
      commonRatios.find?
        (fun t2 => pyAbs (w / h - (t2.1 : ℚ) / (t2.2.1 : ℚ)) < 1/100) = some t →
      _simplify_ratio w h (1/100) = some t.2.2) ∧
    (∀ w h : ℚ, h ≠ 0 →
      commonRatios.find?
        (fun t2 => pyAbs (w / h - (t2.1 : ℚ) / (t2.2.1 : ℚ)) < 1/100) = none →
      _simplify_ratio w h (1/100) = bestApprox (w / h) (1/100)) := by
  refine ⟨?_, by decide, by decide, ?_, ?_⟩
  · intro w
    unfold _simplify_ratio
    rw [if_pos rfl]
  · intro w h hh t _ hfind
    unfold _simplify_ratio
    rw [if_neg hh]
    dsimp only
    rw [hfind]
  · intro w h hh hfind
    unfold _simplify_ratio
    rw [if_neg hh]
    dsimp only
    rw [hfind]

unseal Rat.add Rat.mul Rat.inv Rat.sub in
/-- Witness for C5: the zero-height case at width 10, and the
first-matching-common-ratio case at (320, 180). -/
theorem simplify_ratio_spec_witness :
    _simplify_ratio 10 0 (1/100) = none ∧
    _simplify_ratio 320 180 (1/100) = some "16:9" :=
  ⟨simplify_ratio_spec.1 10,
   simplify_ratio_spec.2.2.2.1 320 180 (by decide) (16, 9, "16:9") (by decide) (by decide)⟩

/-- C6: the generated `pattern_sequence` is exactly the run-length
deduplication (`List.destutter`) of the sections' canonical roles in order —
so no two adjacent entries are equal, while equal roles at non-adjacent
positions each appear. -/
theorem pattern_sequence_run_length_dedup (sections : List Section) :
    patternSequenceOf sections =
      (sections.map fun s => _normalize_role s.role).destutter (· ≠ ·) ∧
    (patternSequenceOf sections).Chain' (· ≠ ·) := by
  refine ⟨patternSequenceOf_destutter sections, ?_⟩
  rw [patternSequenceOf_destutter sections]
  exact List.destutter_is_chain' _ _

theorem toOutSlot_type (t : Slot) : (toOutSlot t).type = t.type := rfl

theorem toOutSlot_id (t : Slot) : (toOutSlot t).id = t.id := rfl

theorem toOutSlot_aspect_none {t : Slot} (h : t.aspect = none) :
    (toOutSlot t).aspect = none := by
  unfold toOutSlot
  rw [h]
  rfl

unseal Rat.add Rat.mul Rat.inv Rat.sub in
/-- C1 counterexample: two collected 100 x 100 containers, the second
carrying the DOM id `content-block-0`.  The first gets the generated id
`slot-content-block-0` (raw role `content-block`, counter 0) and the second
the DOM-id override `slot-content-block-0`, so the result's top-level slot
ids are NOT unique. -/
theorem slot_id_collision_cex :
    ((outputSlots 1920 1000 exDupIds).map OutSlot.id) =
      ["slot-content-block-0", "slot-content-block-0"] ∧
    ¬ ((outputSlots 1920 1000 exDupIds).map OutSlot.id).Nodup := by decide

/-- C1 (amended): when no collected element carries a DOM id, slot ids are
unique within the result: every id is then `slot-<rawRole>-<counter>` with a
digit-free raw role and a counter that is distinct for each emitted slot. -/
theorem slot_ids_nodup_without_dom_ids (vw vh : ℚ) (elements : List ElementInfo)
    (hids : ∀ e ∈ elements, e.id = none) :
    ((outputSlots vw vh elements).map OutSlot.id).Nodup := by
  unfold outputSlots analyzeSlots
  rw [List.map_map]
  have hcomp : (OutSlot.id ∘ toOutSlot) = Slot.id := rfl
  rw [hcomp]
  have hin : ∀ p ∈ (significantElements elements).enum, p.2.id = none := by
    intro p hp
    have hmem : p.2 ∈ significantElements elements := by
      have hg := List.mem_enum_iff_getElem?.mp hp
      exact List.getElem?_mem hg
    exact hids p.2 (List.mem_of_mem_filter hmem)
  have h2 := (@buildSlotsAux_ids vw vh
    (_detect_repeated_groups (significantElements elements) (1/10))
    (significantElements elements).enum 0 hin).2
  exact List.Pairwise.map _ (fun a b h => h) h2

unseal Rat.add Rat.mul Rat.inv Rat.sub in
/-- Witness for the amended C1: a concrete run with one DOM-id-free element
has pairwise distinct slot ids. -/
theorem slot_ids_nodup_without_dom_ids_witness :
    ((outputSlots 1920 1000 exSingleContainer).map OutSlot.id).Nodup :=
  slot_ids_nodup_without_dom_ids 1920 1000 exSingleContainer (by decide)

unseal Rat.add Rat.mul Rat.inv Rat.sub in
/-- C2 counterexample: the single 24 x 1000 px image of `exThinImage`
survives every filter and yields a slot of type `image`, but its ratio
admits no approximation within tolerance, so the output slot dict carries NO
`aspect` key — refuting the left-to-right direction of the claimed `iff`. -/
theorem image_slot_without_aspect_cex :
    (outputSlots 1920 1000 exThinImage).map (fun s => (s.type, s.aspect)) =
      [("image", none)] := by decide

/-- C2 (amended): the `aspect` key appears only on slots of type `image` —
no text or container slot ever carries one — but an image slot may lack the
key when the simplifier returns `None`. -/
theorem aspect_key_only_on_image_slots (vw vh : ℚ) (elements : List ElementInfo) :
    ∀ s ∈ outputSlots vw vh elements, s.aspect ≠ none → s.type = "image" := by
  intro s hs hasp
  unfold outputSlots analyzeSlots at hs
  obtain ⟨t, ht, rfl⟩ := List.mem_map.mp hs
  obtain ⟨p, -, k, -, hstep⟩ := buildSlotsAux_mem _ _ _ ht
  obtain ⟨st, -, rfl⟩ := slotStep_some hstep
  by_cases him : st = "image"
  · exact him
  · exfalso
    apply hasp
    apply toOutSlot_aspect_none
    rw [emittedSlot_aspect, if_neg him]

unseal Rat.add Rat.mul Rat.inv Rat.sub in
/-- Witness for the amended C2: the concrete 1600 x 900 image slot carries
an aspect key, and the theorem yields that its type is `image`. -/
theorem aspect_key_only_on_image_slots_witness :
    sampleImageOutSlot.type = "image" :=
  aspect_key_only_on_image_slots 1920 1000 exWideImage sampleImageOutSlot
    (by decide) (by decide)

unseal Rat.add Rat.mul Rat.inv Rat.sub in
/-- C7 counterexample.  In `exChain` the elements at indices 1 and 2 are
dimension-similar (widths 109 and 118 differ by 9/118 < 10 percent of the
larger, equal heights), yet they do not share a group: the greedy pass
seeded at index 0 takes index 1, and index 2 is left ungrouped — refuting
the claimed symmetry.  In `exSpread` the members at indices 1 and 2 share a
group although their widths (93.5 and 110) differ by exactly 15 percent of
the larger — refuting the claimed 15-percent exclusion. -/
theorem repeated_groups_similarity_cex :
    similarDims (1/10) (mkContainer none 0 0 109 100) (mkContainer none 0 0 118 100) = true ∧
    (∀ g ∈ _detect_repeated_groups exChain (1/10), ¬(1 ∈ g.2 ∧ 2 ∈ g.2)) ∧
    ((110 : ℚ) - 187/2) / 110 = 15/100 ∧
    (∃ g ∈ _detect_repeated_groups exSpread (1/10), 1 ∈ g.2 ∧ 2 ∈ g.2) := by decide

/-- C7 (amended): repeated-group membership is governed by similarity to the
group's greedy seed, not by mutual similarity: every group has at least two
members, the groups are pairwise disjoint (each element belongs to at most
one group), and every non-seed member is dimension-similar to the group's
seed element.  Mutually similar elements may land in different groups, and
two non-seed members may differ by 15 percent and still share a group. -/
theorem repeated_groups_greedy_structure (elems : List ElementInfo) (threshold : ℚ) :
    (_detect_repeated_groups elems threshold).Pairwise
      (fun g1 g2 => ∀ j ∈ g1.2, j ∉ g2.2) ∧
    (∀ g ∈ _detect_repeated_groups elems threshold, 2 ≤ g.2.length) ∧
    (∀ g ∈ _detect_repeated_groups elems threshold, ∀ j ∈ g.2,
      j = g.1 ∨ ∃ e1 e2, elems.get? g.1 = some e1 ∧ elems.get? j = some e2 ∧
        similarDims threshold e1 e2 = true) := by
  unfold _detect_repeated_groups
  exact detectRepeatedGroupsGo_props elems threshold _ [] []
    (by simp) (by simp) (by simp) (by simp)

unseal Rat.add Rat.mul Rat.inv Rat.sub in
/-- Witness for the amended C7: in the concrete run on `exChain`, the
non-seed member 1 of the group seeded at 0 is dimension-similar to the
seed. -/
theorem repeated_groups_greedy_structure_witness :
    (1 : ℕ) = ((0 : ℕ), [0, 1]).1 ∨
    ∃ e1 e2, exChain.get? ((0 : ℕ), [0, 1]).1 = some e1 ∧
      exChain.get? 1 = some e2 ∧ similarDims (1/10) e1 e2 = true :=
  (repeated_groups_greedy_structure exChain (1/10)).2.2 (0, [0, 1]) (by decide) 1 (by decide)

unseal Rat.add Rat.mul Rat.inv Rat.sub in
/-- C8 counterexample: the 30 x 500 px image of `exNarrowImage` has width
below the 50 px threshold (and is not text), yet it yields a slot — the code
drops an element only when BOTH dimensions are below 50, not when either
is. -/
theorem size_filter_or_cex :
    ((30 : ℚ) < 50) ∧ (mkImage 0 400 30 500).element_type ≠ "text" ∧
    (outputSlots 1920 1000 exNarrowImage).length = 1 := by decide

/-- C8 (amended): the slot loop's size check drops an element only when both
its width AND height are below 50 px and it is not a text element; text
elements are exempt from the size drop, and a text element yields no slot
exactly when it has a non-heading tag, empty text and no children. -/
theorem size_filter_conjunctive (vw vh : ℚ) (rg : List (ℕ × List ℕ)) (i c : ℕ)
    (e : ElementInfo) :
    (e.bounding_box.width < 50 → e.bounding_box.height < 50 →
      e.element_type ≠ "text" → slotStep vw vh rg i c e = none) ∧
    (e.element_type = "text" →
      (slotStep vw vh rg i c e = none ↔
        (e.tag ∉ ["h1", "h2", "h3", "h4", "h5", "h6", "p"] ∧
         e.text_content = "" ∧ e.has_children = false))) := by
  constructor
  · intro hw hh ht
    exact slotStep_small_nontext hw hh ht
  · intro ht
    rw [slotStep_text ht]
    by_cases htag : e.tag ∈ ["h1", "h2", "h3", "h4", "h5", "h6", "p"]
    · have hsome : slotTypeOf e = some "text" := by
        unfold slotTypeOf
        rw [if_neg (fun hc => by rw [ht] at hc; exact absurd hc.1 (by decide)),
          if_pos ⟨ht, htag⟩]
      rw [hsome]
      simp [htag]
    · rw [slotTypeOf_text_inline ht htag]
      by_cases hc : e.text_content = "" ∧ e.has_children = false
      · rw [if_pos hc]
        simp [htag, hc.1, hc.2]
      · rw [if_neg hc]
        simp only [Option.map_some']
        constructor
        · intro habs
          exact absurd habs (by simp)
        · rintro ⟨-, h2, h3⟩
          exact absurd ⟨h2, h3⟩ hc

unseal Rat.add Rat.mul Rat.inv Rat.sub in
/-- Witness for the amended C8: a 30 x 30 px non-text container is dropped
by the size check. -/
theorem size_filter_conjunctive_witness :
    slotStep 1920 1000 [] 0 0 (mkContainer none 0 0 30 30) = none :=
  (size_filter_conjunctive 1920 1000 [] 0 0 (mkContainer none 0 0 30 30)).1
    (by decide) (by decide) (by decide)

unseal Rat.add Rat.mul Rat.inv Rat.sub in
/-- C9 counterexample: for the plain container of `exSingleContainer` the
emitted slot's normalized role field is `content`, but its id is
`slot-content-block-0` — built from the RAW inferred role `content-block`,
not from the slot's normalized role as the claim states. -/
theorem slot_id_raw_role_cex :
    (outputSlots 1920 1000 exSingleContainer).map (fun s => (s.id, s.role)) =
      [("slot-content-block-0", "content")] ∧
    ("slot-content-block-0" : String) ≠ "slot-" ++ "content" ++ "-" ++ "0" := by decide

/-- C9 (amended): the sequential counter advances exactly once per emitted
slot — the n-th emitted slot is produced with counter value start + n, even
when its id is overridden by a DOM id — and each emitted slot's id is
`slot-<rawInferredRole>-<counter>` built from the raw (pre-normalization)
inferred role, overridden to `slot-<domId>` when the source element carries
a non-empty DOM id. -/
theorem slot_id_generation (vw vh : ℚ) (rg : List (ℕ × List ℕ))
    (ies : List (ℕ × ElementInfo)) (c : ℕ) :
    (∀ n (h : n < (buildSlotsAux vw vh rg ies c).length),
      ∃ p ∈ ies, slotStep vw vh rg p.1 (c + n) p.2 =
        some ((buildSlotsAux vw vh rg ies c).get ⟨n, h⟩)) ∧
    (∀ (i k : ℕ) (e : ElementInfo) (s : Slot), slotStep vw vh rg i k e = some s →
      s.id = match e.id with
        | some d => if d ≠ "" then "slot-" ++ d
                    else "slot-" ++ rawRoleOf vh e ++ "-" ++ natStr k
        | none => "slot-" ++ rawRoleOf vh e ++ "-" ++ natStr k) := by
  constructor
  · exact fun n h => buildSlotsAux_get ies c n h
  · intro i k e s hstep
    obtain ⟨st, -, rfl⟩ := slotStep_some hstep
    exact emittedSlot_id vw vh rg i k e st

unseal Rat.add Rat.mul Rat.inv Rat.sub in
/-- Witness for the amended C9: in a concrete one-element run the slot at
position 0 was produced with counter 0 + 0, and the concrete emitted slot's
id is built from the raw role and the counter. -/
theorem slot_id_generation_witness :
    (∃ p ∈ [((0 : ℕ), mkContainer none 0 400 100 100)],
      slotStep 1920 1000 [] p.1 (0 + 0) p.2 =
        some ((buildSlotsAux 1920 1000 []
          [((0 : ℕ), mkContainer none 0 400 100 100)] 0).get ⟨0, by decide⟩)) ∧
    sampleContainerSlot.id =
      "slot-" ++ rawRoleOf 1000 (mkContainer none 0 400 100 100) ++ "-" ++ natStr 0 :=
  ⟨(slot_id_generation 1920 1000 [] [((0 : ℕ), mkContainer none 0 400 100 100)] 0).1
      0 (by decide),
   (slot_id_generation 1920 1000 [] [] 0).2 0 0 (mkContainer none 0 400 100 100)
     sampleContainerSlot (by decide)⟩

unseal Rat.add Rat.mul Rat.inv Rat.sub in
/-- C10 counterexample: the collected 10 x 10 px span of `exTinySpan` is
classified `text` and has non-empty text, yet it yields NO slot at all: the
20 px significance prefilter drops it before the slot loop runs — refuting
the claim as stated for every collected element. -/
theorem tiny_text_element_cex :
    (∀ e ∈ exTinySpan, e.element_type = "text" ∧ e.tag = "span" ∧
      e.text_content ≠ "") ∧
    outputSlots 1920 1000 exTinySpan = [] := by decide

/-- C10 (amended): for an element classified `text` whose tag is span, a,
button, or label, the slot loop emits a slot exactly when the element has
non-empty text content or children, and any emitted slot has type
`container` rather than `text` (so a CTA button's slot type is `container`)
— provided the element reaches the slot loop, i.e. is at least 20 px in both
dimensions so the significance prefilter keeps it. -/
theorem inline_text_slot_type (vw vh : ℚ) (rg : List (ℕ × List ℕ)) (i c : ℕ)
    (e : ElementInfo) (htype : e.element_type = "text")
    (htag : e.tag ∈ ["span", "a", "button", "label"]) :
    (slotStep vw vh rg i c e = none ↔
      (e.text_content = "" ∧ e.has_children = false)) ∧
    (∀ s, slotStep vw vh rg i c e = some s → s.type = "container") := by
  have hnot : e.tag ∉ ["h1", "h2", "h3", "h4", "h5", "h6", "p"] := by
    simp only [List.mem_cons, List.not_mem_nil, or_false] at htag
    rcases htag with h | h | h | h <;> rw [h] <;> decide
  rw [slotStep_text htype, slotTypeOf_text_inline htype hnot]
  constructor
  · by_cases hc : e.text_content = "" ∧ e.has_children = false
    · rw [if_pos hc]
      simpa using hc
    · rw [if_neg hc]
      simp only [Option.map_some']
      constructor
      · intro habs
        exact absurd habs (by simp)
      · intro h2
        exact absurd h2 hc
  · intro s hs
    by_cases hc : e.text_content = "" ∧ e.has_children = false
    · rw [if_pos hc] at hs
      simp at hs
    · rw [if_neg hc] at hs
      simp only [Option.map_some', Option.some_inj] at hs
      rw [← hs]
      rfl

unseal Rat.add Rat.mul Rat.inv Rat.sub in
/-- Witness for the amended C10: the concrete CTA button element is
classified `text`, and its emitted slot has type `container`. -/
theorem inline_text_slot_type_witness :
    ctaButton.element_type = "text" ∧ sampleCtaSlot.type = "container" :=
  ⟨by decide,
   (inline_text_slot_type 1920 1000 [] 0 0 ctaButton (by decide) (by decide)).2
     sampleCtaSlot (by decide)⟩
